import Mathlib

/-
Verification of the plan-perfect-supabase client scripts.

The scripts are thin HTTP glue: build a payload, post it, interpret a flat
JSON reply, persist files, poll a REST table.  We embed each script-side
control flow as a pure Lean function over an explicit model of the network:
an HTTP exchange is an `Except PyExn r` value (exception raised by the
requests/httpx library, or a response object carrying the status code and
the already-parsed JSON body).  Reply dictionaries are embedded as
structures whose fields are the keys the scripts actually read; an absent
key is `none`.  Wall-clock loops are embedded with an explicit fuel that is
provably sufficient, and the streamed-tag parser of test-schema-perfect.py
is embedded character-for-character (iter_lines accumulation, the two
regex-strip passes, and the final strip).
-/

/-- Exceptions of the requests/httpx layer as the scripts distinguish them:
a timeout, an HTTPError produced by raise_for_status (carrying the status
code), any other RequestException, and any other exception. -/
inductive PyExn where
  | timeout
  | httpError (status : Nat)
  | requestError (msg : String)
  | otherError (msg : String)
deriving DecidableEq, Repr

/-- JSON reply of the generate-side-by-side function, restricted to the keys
the scripts read: success, error, status, html, schema.  An absent key is
none; the schema value is kept as its serialized JSON text. -/
structure SbsResult where
  success : Bool
  error : Option String := none
  status : Option String := none
  html : Option String := none
  schema : Option String := none
deriving DecidableEq, Repr

/-- An HTTP response to a generate-side-by-side call: status code plus the
parsed JSON body. -/
structure SbsResponse where
  statusCode : Nat
  body : SbsResult
deriving DecidableEq, Repr

/-- requests.Response.raise_for_status: raises HTTPError exactly for 4xx and
5xx status codes. -/
def raise_for_status (status : Nat) : Except PyExn Unit :=
  if 400 ≤ status ∧ status < 600 then .error (.httpError status) else .ok ()

/-- GenerateSideBySide.generate_html of generate-side-by-side-python-example.py.
The network exchange is the argument.  The code calls raise_for_status and
returns response.json() whether its success flag is true or false; the
except-Timeout and except-RequestException handlers both print and re-raise,
so every exception propagates to the caller. -/
def generate_html (resp : Except PyExn SbsResponse) : Except PyExn SbsResult :=
  match resp with
  | .error e => .error e
  | .ok r =>
    match raise_for_status r.statusCode with
    | .error e => .error e
    | .ok _ => .ok r.body

/-- generate_html of generate-side-by-side-quickstart.py: same exchange with
no handler at all inside the function, so exceptions (including the
HTTPError from raise_for_status) propagate to the __main__ caller. -/
def generate_html_quickstart (resp : Except PyExn SbsResponse) : Except PyExn SbsResult :=
  match resp with
  | .error e => .error e
  | .ok r =>
    match raise_for_status r.statusCode with
    | .error e => .error e
    | .ok _ => .ok r.body

/-- JSON reply of the content-intake function, restricted to the keys read by
submit_job: job_id, status, stage. -/
structure IntakeReply where
  job_id : Option String := none
  status : Option String := none
  stage : Option String := none
deriving DecidableEq, Repr

/-- An HTTP response to a content-intake submission. -/
structure IntakeResponse where
  statusCode : Nat
  body : IntakeReply
deriving DecidableEq, Repr

/-- submit_job of test-content-intake.py (identical control flow in
test-medidrive-content.py): status 200 or 202 means success and yields
data.get('job_id'); any other status returns None; the
except-RequestException handler returns None.  No retry. -/
def submit_job (resp : Except PyExn IntakeResponse) : Option String :=
  match resp with
  | .error _ => none
  | .ok r => if r.statusCode = 200 ∨ r.statusCode = 202 then r.body.job_id else none

/-- submit_job of test-medidrive-content.py, embedded separately: the same
status test and the same extraction. -/
def submit_job_medidrive (resp : Except PyExn IntakeResponse) : Option String :=
  match resp with
  | .error _ => none
  | .ok r => if r.statusCode = 200 ∨ r.statusCode = 202 then r.body.job_id else none

/-- The failure dictionary returned by generate_with_retry when every
attempt has failed. -/
def failedAfter (maxRetries : Nat) : SbsResult :=
  { success := false
    error := some ("Failed after " ++ toString maxRetries ++ " attempts") }

/-- Whether one attempt of the retry loop counts as failed: generate_html
returned a result whose success flag is false, or raised (Timeout or any
other exception — both handlers sleep and continue). -/
def attemptFailed (x : Except PyExn SbsResult) : Bool :=
  match x with
  | .ok d => !d.success
  | .error _ => true

/-- Body of the for-loop of generate_with_retry
(generate-side-by-side-python-example.py, EXAMPLE 4).  net k is the network
exchange of the k-th attempt (attempts are numbered from 1), remaining the
number of loop iterations left.  The returned triple is the result together
with the number of attempts made and of retry-delay sleeps performed; a
sleep happens only after a failed attempt that is not the last one. -/
def retryGo (net : Nat → Except PyExn SbsResponse) (maxRetries : Nat) :
    Nat → Nat → SbsResult × Nat × Nat
  | _, 0 => (failedAfter maxRetries, 0, 0)
  | attempt, remaining + 1 =>
    match generate_html (net attempt) with
    | .ok d =>
      if d.success then (d, 1, 0)
      else if remaining = 0 then (failedAfter maxRetries, 1, 0)
      else
        let r := retryGo net maxRetries (attempt + 1) remaining
        (r.1, r.2.1 + 1, r.2.2 + 1)
    | .error _ =>
      if remaining = 0 then (failedAfter maxRetries, 1, 0)
      else
        let r := retryGo net maxRetries (attempt + 1) remaining
        (r.1, r.2.1 + 1, r.2.2 + 1)

/-- generate_with_retry of generate-side-by-side-python-example.py: up to
max_retries attempts, starting at attempt 1. -/
def generate_with_retry (net : Nat → Except PyExn SbsResponse) (maxRetries : Nat) :
    SbsResult × Nat × Nat :=
  retryGo net maxRetries 1 maxRetries

/-- Reply fields of generate-hero-image-prompt that the hero-image scripts
read: the nested save_status.success flag and save_status.hero_image_prompt_id,
plus content_source. -/
structure PromptReply where
  save_success : Bool := false
  hero_image_prompt_id : Option String := none
  content_source : Option String := none
deriving DecidableEq, Repr

/-- Reply fields of generate-hero-image that the scripts read. -/
structure ImageReply where
  success : Bool := false
  hero_image_url : Option String := none
  title : Option String := none
deriving DecidableEq, Repr

/-- Response to the prompt-generation call: status code, raw text (used for
diagnostics), parsed body. -/
structure PromptResponse where
  statusCode : Nat
  text : String
  body : PromptReply
deriving DecidableEq, Repr

/-- Response to the image-generation call. -/
structure ImageResponse where
  statusCode : Nat
  text : String
  body : ImageReply
deriving DecidableEq, Repr

/-- Result dictionary of generate_hero_image_from_unedited, restricted to
the keys the function can put in it. -/
structure HeroResult where
  success : Bool
  error : Option String := none
  details : Option String := none
  prompt_result : Option PromptReply := none
  image_result : Option ImageReply := none
  hero_image_url : Option String := none
  hero_image_prompt_id : Option String := none
deriving DecidableEq, Repr

/-- The two remote calls the hero-image flow can issue, recorded in order. -/
inductive HeroCall where
  | promptCall
  | imageCall
deriving DecidableEq, Repr

/-- The dictionaries built by the except-handlers of
generate_hero_image_from_unedited.  timeoutSecs is the script's timeout
argument (a float in the source, embedded as seconds); the HTTPStatusError
handler cannot actually fire since the flow never calls raise_for_status,
and is embedded without the response text it would print. -/
def heroExnResult (timeoutSecs : Nat) (e : PyExn) : HeroResult :=
  match e with
  | .timeout =>
    { success := false
      error := some ("Request timed out after " ++ toString timeoutSecs ++ " seconds") }
  | .httpError s =>
    { success := false, error := some ("HTTP " ++ toString s) }
  | .requestError m => { success := false, error := some m }
  | .otherError m => { success := false, error := some m }

/-- generate_hero_image_from_unedited of generate-hero-image-from-unedited.py
(the helper in generate-hero-image-helper.py has the same status checks and
failure dictionaries, minus the exception wrapper).  The two arguments are
the outcomes the network would give to the prompt call and to the image
call; the returned list records which calls were actually issued, in
order. -/
def generate_hero_image_from_unedited (timeoutSecs : Nat)
    (promptResp : Except PyExn PromptResponse)
    (imageResp : Except PyExn ImageResponse) : HeroResult × List HeroCall :=
  match promptResp with
  | .error e => (heroExnResult timeoutSecs e, [.promptCall])
  | .ok pr =>
    if pr.statusCode ≠ 200 then
      ({ success := false
         error := some ("Prompt generation failed: HTTP " ++ toString pr.statusCode)
         details := some (pr.text.take 500) }, [.promptCall])
    else
      match imageResp with
      | .error e => (heroExnResult timeoutSecs e, [.promptCall, .imageCall])
      | .ok ir =>
        if ir.statusCode ≠ 200 then
          ({ success := false
             error := some ("Image generation failed: HTTP " ++ toString ir.statusCode)
             details := some (ir.text.take 500)
             prompt_result := some pr.body }, [.promptCall, .imageCall])
        else
          ({ success := true
             prompt_result := some pr.body
             image_result := some ir.body
             hero_image_url := ir.body.hero_image_url
             hero_image_prompt_id := pr.body.hero_image_prompt_id },
           [.promptCall, .imageCall])

/-- A row of the content_jobs table as the monitors read it. -/
structure JobRow where
  status : String
  stage : String := ""
deriving DecidableEq, Repr

/-- Terminal job states of the monitor loop. -/
def isTerminal (s : String) : Bool :=
  s == "completed" || s == "failed"

/-- A response from the REST table endpoint: status code and the list of
matching rows. -/
structure RestResponse where
  statusCode : Nat
  rows : List JobRow
deriving DecidableEq, Repr

/-- check_job_status of test-content-intake.py (same logic in
test-medidrive-content.py): on HTTP 200 return the first row if any row
came back; on any other status, an empty row list, or any exception,
return None. -/
def check_job_status (resp : Except PyExn RestResponse) : Option JobRow :=
  match resp with
  | .error _ => none
  | .ok r => if r.statusCode = 200 then r.rows.head? else none

/-- Whether one poll outcome is non-terminal: no row came back, or the row's
status is not completed/failed. -/
def pollNonTerminal (o : Option JobRow) : Bool :=
  match o with
  | none => true
  | some job => !isTerminal job.status

/-- Possible outcomes of the monitor loop: an early return on a terminal
status (with the number of polls made and the elapsed seconds at that
poll), expiry of the maximum duration, or fuel exhaustion — which the
termination theorems show is unreachable for the fuel monitor_job
supplies. -/
inductive MonitorResult where
  | finished (status : String) (polls : Nat) (elapsed : Nat)
  | timedOut (polls : Nat)
  | outOfFuel
deriving DecidableEq, Repr

/-- The while-loop of monitor_job (test-content-intake.py and
test-medidrive-content.py): while the elapsed time is below the duration,
fetch the job row (fetch k is the k-th poll's outcome); a fetched terminal
status returns immediately, anything else sleeps interval seconds and
loops.  Time is discrete: each iteration advances the clock by the sleep
interval. -/
def monitorLoop (fetch : Nat → Option JobRow) (duration interval : Nat) :
    Nat → Nat → Nat → MonitorResult
  | fuel, k, elapsed =>
    if elapsed < duration then
      match fuel with
      | 0 => .outOfFuel
      | f + 1 =>
        match fetch k with
        | some job =>
          if isTerminal job.status then .finished job.status (k + 1) elapsed
          else monitorLoop fetch duration interval f (k + 1) (elapsed + interval)
        | none => monitorLoop fetch duration interval f (k + 1) (elapsed + interval)
    else .timedOut k

/-- monitor_job: run the polling loop from time 0 with fuel duration + 1,
enough for any interval ≥ 1. -/
def monitor_job (fetch : Nat → Option JobRow) (duration interval : Nat) : MonitorResult :=
  monitorLoop fetch duration interval (duration + 1) 0 0

/-- Ceiling division, the number of polls a full monitoring window makes. -/
def ceilDiv (a b : Nat) : Nat := (a + b - 1) / b

/-- Rendering of a caught exception as str(e) for batch summaries. -/
def pyExnStr (e : PyExn) : String :=
  match e with
  | .timeout => "Timeout"
  | .httpError s => "HTTPError " ++ toString s
  | .requestError m => m
  | .otherError m => m

/-- One entry of the results list of the parallel batch example. -/
structure BatchEntry where
  task_id : String
  success : Bool
  html_length : Option Nat := none
  error : Option String := none
deriving DecidableEq, Repr

/-- The per-future collection step of example_batch_parallel: future.result()
re-raises whatever client.generate_html raised; a normal result is recorded
with its success flag and HTML length, an exception as a failed entry. -/
def collectEntry (tid : String) (net : Except PyExn SbsResponse) : BatchEntry :=
  match generate_html net with
  | .ok d => { task_id := tid, success := d.success, html_length := some (d.html.getD "").length }
  | .error e => { task_id := tid, success := false, error := some (pyExnStr e) }

/-- The five task IDs submitted by example_batch_parallel in the source. -/
def taskIds5 : List String :=
  ["task-uuid-1", "task-uuid-2", "task-uuid-3", "task-uuid-4", "task-uuid-5"]

/-- example_batch_parallel of generate-side-by-side-python-example.py: one
future per position of the task list, results appended in completion order.
order is the completion order of as_completed (a permutation of the future
indices), net i the network outcome of future i. -/
def example_batch_parallel (taskIds : List String) (net : Nat → Except PyExn SbsResponse)
    (order : List Nat) : List BatchEntry :=
  order.map (fun i => collectEntry (taskIds.getD i "") (net i))

/-- A file written to the working directory: name and content. -/
structure FileWrite where
  fname : String
  content : String
deriving DecidableEq, Repr

/-- Substring test over explicit character lists (whether pat occurs
contiguously in the second list). -/
def occursIn (pat : List Char) : List Char → Bool
  | [] => pat.isPrefixOf []
  | c :: rest => pat.isPrefixOf (c :: rest) || occursIn pat rest

/-- The save block of call-generate-side-by-side.py: on success write the
HTML to output-TASKID.html and, if the reply carries a schema value, write
it to schema-TASKID.json; nothing is written otherwise. -/
def saveOutputs (task_id : String) (result : SbsResult) : List FileWrite :=
  if result.success then
    { fname := "output-" ++ task_id ++ ".html", content := result.html.getD "" }
      :: (match result.schema with
          | some sch => [{ fname := "schema-" ++ task_id ++ ".json", content := sch }]
          | none => [])
  else []

/-- The __main__ save block of generate-side-by-side-quickstart.py: the same
success/schema logic but with the fixed file names generated-output.html and
generated-schema.json. -/
def saveOutputsQuickstart (result : SbsResult) : List FileWrite :=
  if result.success then
    { fname := "generated-output.html", content := result.html.getD "" }
      :: (match result.schema with
          | some sch => [{ fname := "generated-schema.json", content := sch }]
          | none => [])
  else []

/-- The waiting loop of GenerateSideBySide.generate_with_polling: while the
elapsed time is below max_wait, sleep poll_interval seconds; no status check
happens in the loop body.  Returns the total elapsed time when the loop
exits. -/
def pollLoop (poll_interval max_wait : Nat) : Nat → Nat → Nat
  | 0, elapsed => elapsed
  | f + 1, elapsed =>
    if elapsed < max_wait then pollLoop poll_interval max_wait f (elapsed + poll_interval)
    else elapsed

/-- GenerateSideBySide.generate_with_polling: the kickoff request's outcome
is the argument; a Timeout from the kickoff is swallowed (printed only),
any other exception propagates (the except clause catches Timeout only),
and in all remaining cases the function waits out the polling loop and
returns the dictionary success=False, error="Polling timeout", paired here
with the total time slept. -/
def generate_with_polling (kick : Except PyExn SbsResponse) (poll_interval max_wait : Nat) :
    Except PyExn (SbsResult × Nat) :=
  match kick with
  | .error PyExn.timeout =>
    .ok ({ success := false, error := some "Polling timeout" },
      pollLoop poll_interval max_wait (max_wait + 1) 0)
  | .error e => .error e
  | .ok _ =>
    .ok ({ success := false, error := some "Polling timeout" },
      pollLoop poll_interval max_wait (max_wait + 1) 0)

/-- Character strings of the streamed-tag parser, as explicit char lists. -/
abbrev Chars := List Char

/-- The section markers of the generate-schema-perfect stream. -/
def procOpen : Chars := ['<', 'p', 'r', 'o', 'c', 'e', 's', 's', 'i', 'n', 'g', '>']

/-- Closing marker of the processing section. -/
def procClose : Chars := ['<', '/', 'p', 'r', 'o', 'c', 'e', 's', 's', 'i', 'n', 'g', '>']

/-- Opening marker of the thinking section. -/
def thinkOpen : Chars := ['<', 't', 'h', 'i', 'n', 'k', '>']

/-- Closing marker of the thinking section. -/
def thinkClose : Chars := ['<', '/', 't', 'h', 'i', 'n', 'k', '>']

/-- Scan for the first occurrence of close and return everything after it —
the lazy semantics of the .*? part of the strip pattern. -/
def findClose (close : Chars) : Chars → Option Chars
  | [] => none
  | c :: rest =>
    if close.isPrefixOf (c :: rest) then some (List.drop close.length (c :: rest))
    else findClose close rest

/-- One pass of re.sub(open .*? close, empty, s, DOTALL): scan left to
right; where the opening marker matches and a closing marker follows, drop
everything through the first closing marker and continue after it; where
the opening marker matches without a later closing marker, or does not
match, keep the character and move on. -/
def stripTag (opn close : Chars) (hne : opn ≠ []) : Chars → Chars
  | [] => []
  | c :: rest =>
    if opn.isPrefixOf (c :: rest) then
      match hfc : findClose close (List.drop opn.length (c :: rest)) with
      | some r => stripTag opn close hne r
      | none => c :: stripTag opn close hne rest
    else c :: stripTag opn close hne rest
termination_by s => s.length
decreasing_by
  · have hle : ∀ (u v : List Char), findClose close u = some v → v.length ≤ u.length := by
      intro u
      induction u with
      | nil => intro v hv; simp [findClose] at hv
      | cons a t ih =>
        intro v hv
        by_cases hp : close.isPrefixOf (a :: t) = true
        · rw [findClose, if_pos hp] at hv
          injection hv with hv'
          subst hv'
          rw [List.length_drop]
          omega
        · rw [findClose, if_neg hp] at hv
          exact le_trans (ih v hv) (by simp)
    have h1 := hle _ _ hfc
    have h2 : (List.drop opn.length (c :: rest)).length = (c :: rest).length - opn.length :=
      List.length_drop _ _
    have h3 : 0 < opn.length := List.length_pos.mpr hne
    simp only [List.length_cons] at h1 h2 ⊢
    omega
  · simp
  · simp

/-- The stripping pass for processing sections. -/
def stripProc (s : Chars) : Chars := stripTag procOpen procClose (by decide) s

/-- The stripping pass for thinking sections. -/
def stripThink (s : Chars) : Chars := stripTag thinkOpen thinkClose (by decide) s

/-- The whitespace characters removed by str.strip (ASCII). -/
def isSpaceChar (c : Char) : Bool :=
  c == ' ' || c == '\t' || c == '\n' || c == '\r' || c == '\x0b' || c == '\x0c'

/-- Leading-whitespace removal. -/
def trimLeft : Chars → Chars
  | [] => []
  | c :: s => if isSpaceChar c then trimLeft s else c :: s

/-- Trailing-whitespace removal. -/
def trimRight (s : Chars) : Chars := (trimLeft s.reverse).reverse

/-- str.strip: remove leading and trailing whitespace. -/
def trim (s : Chars) : Chars := trimRight (trimLeft s)

/-- The JSON-extraction step of test_schema_perfect: strip processing
sections, then thinking sections, then surrounding whitespace. -/
def cleanResponse (s : Chars) : Chars := trim (stripThink (stripProc s))

/-- Accumulation of full_response over response.iter_lines(): every
non-empty line is appended followed by a newline; empty lines are
skipped. -/
def consume : List Chars → Chars
  | [] => []
  | l :: ls => if l = [] then consume ls else l ++ ('\n' :: consume ls)

/-- A streaming response: status code and the received lines. -/
structure StreamResponse where
  statusCode : Nat
  lines : List Chars
deriving DecidableEq, Repr

/-- test_schema_perfect of test-schema-perfect.py.  parse stands for
json.loads (returning none on a decode error, in which case the script
reports the parse failure and returns None).  A non-200 status returns None
before any streaming; an exception (timeout, request failure, anything
else) returns None.  Otherwise the streamed lines are accumulated, the two
tag patterns stripped, the remainder stripped of whitespace and handed to
the JSON parser. -/
def test_schema_perfect {α : Type} (parse : Chars → Option α)
    (resp : Except PyExn StreamResponse) : Option α :=
  match resp with
  | .error _ => none
  | .ok r =>
    if r.statusCode = 200 then parse (cleanResponse (consume r.lines)) else none

/-- The two kinds of tagged sections preceding the JSON body. -/
inductive TagKind where
  | proc
  | think
deriving DecidableEq, Repr

/-- One tagged section of the stream: its kind, the characters between its
markers, and the separator characters (newlines of the line protocol)
following it. -/
structure StreamBlock where
  kind : TagKind
  content : Chars
  sep : Chars
deriving DecidableEq, Repr

/-- Opening marker of a section kind. -/
def openTag : TagKind → Chars
  | .proc => procOpen
  | .think => thinkOpen

/-- Closing marker of a section kind. -/
def closeTag : TagKind → Chars
  | .proc => procClose
  | .think => thinkClose

/-- The characters a block contributes to full_response. -/
def renderBlock (b : StreamBlock) : Chars :=
  openTag b.kind ++ (b.content ++ (closeTag b.kind ++ b.sep))

/-- The characters a sequence of blocks contributes to full_response. -/
def renderBlocks : List StreamBlock → Chars
  | [] => []
  | b :: bs => renderBlock b ++ renderBlocks bs

/-- The separators left over after both tag-strip passes. -/
def sepsOf : List StreamBlock → Chars
  | [] => []
  | b :: bs => b.sep ++ sepsOf bs

/-- Well-formedness of a block: its content holds no marker character (the
markers all start with the angle bracket) and its separators are
whitespace. -/
def goodBlock (b : StreamBlock) : Prop :=
  (∀ ch ∈ b.content, ch ≠ '<') ∧ (∀ ch ∈ b.sep, isSpaceChar ch = true)

/-- The content of the spec's example think block: garbage{not json}. -/
def exContent : Chars :=
  ['g', 'a', 'r', 'b', 'a', 'g', 'e', '\x7b', 'n', 'o', 't', ' ', 'j', 's', 'o', 'n', '\x7d']

/-- The JSON body of the spec's example: an object with an at-type key and
the value Article. -/
def exBody : Chars :=
  ['\x7b', '"', '@', 't', 'y', 'p', 'e', '"', ':', '"', 'A', 'r', 't', 'i', 'c', 'l', 'e', '"', '\x7d']

/-- The spec's example stream line: the think block followed immediately by
the JSON body. -/
def exLine : Chars := thinkOpen ++ (exContent ++ (thinkClose ++ exBody))

/-- The spec's example think block as a StreamBlock. -/
def exBlock : StreamBlock := ⟨TagKind.think, exContent, []⟩

-- ### Theorems

/-- Claim C1 (amended): a non-2xx response never yields a success value, but
not in the way the claim states.  For a 4xx/5xx response both generate_html
variants raise an HTTPError carrying the status code, which propagates past
the function boundary (the internal handlers re-raise); test_schema_perfect
returns the failure value None without raising, a value that does not carry
the status code (the code only prints it). -/
theorem generate_html_non2xx_raises (r : SbsResponse) {α : Type} (parse : Chars → Option α)
    (sr : StreamResponse)
    (h4 : 400 ≤ r.statusCode) (h6 : r.statusCode < 600) (hsr : sr.statusCode ≠ 200) :
    generate_html (Except.ok r) = Except.error (PyExn.httpError r.statusCode)
    ∧ generate_html_quickstart (Except.ok r) = Except.error (PyExn.httpError r.statusCode)
    ∧ test_schema_perfect parse (Except.ok sr) = none := by
  refine ⟨?_, ?_, ?_⟩
  · simp [generate_html, raise_for_status, h4, h6]
  · simp [generate_html_quickstart, raise_for_status, h4, h6]
  · simp [test_schema_perfect, hsr]

/-- Witness for the amended C1 theorem at a concrete 500 response to
generate_html and a 404 streaming response to test_schema_perfect. -/
theorem generate_html_non2xx_raises_witness :
    generate_html (Except.ok ⟨500, { success := false }⟩)
      = Except.error (PyExn.httpError 500)
    ∧ generate_html_quickstart (Except.ok ⟨500, { success := false }⟩)
      = Except.error (PyExn.httpError 500)
    ∧ test_schema_perfect (fun s => some s) (Except.ok ⟨404, []⟩) = none :=
  generate_html_non2xx_raises ⟨500, { success := false }⟩ (fun s => some s) ⟨404, []⟩
    (by decide) (by decide) (by decide)

/-- Counterexample to claim C1 as stated: at the concrete input of a 500
response, generate_html does not return a failure result value at all; the
HTTPError exception propagates past the function boundary. -/
theorem generate_html_500_counterexample :
    generate_html (Except.ok ⟨500, { success := false }⟩)
      = Except.error (PyExn.httpError 500)
    ∧ (generate_html (Except.ok ⟨500, { success := false }⟩)).isOk = false := by
  constructor <;> rfl

/-- Claim C4: submit_job treats 200 and 202 identically as success and
returns the job_id extracted from the reply; any other status code or any
request exception yields None.  The medidrive variant behaves identically. -/
theorem submit_job_spec (b : IntakeReply) (s : Nat) (e : PyExn)
    (hs200 : s ≠ 200) (hs202 : s ≠ 202) :
    submit_job (Except.ok ⟨200, b⟩) = b.job_id
    ∧ submit_job (Except.ok ⟨202, b⟩) = b.job_id
    ∧ submit_job (Except.ok ⟨s, b⟩) = none
    ∧ submit_job (Except.error e) = none
    ∧ (∀ resp : Except PyExn IntakeResponse, submit_job_medidrive resp = submit_job resp) := by
  refine ⟨by simp [submit_job], by simp [submit_job], ?_, rfl, ?_⟩
  · simp [submit_job, hs200, hs202]
  · intro resp
    cases resp with
    | error e => rfl
    | ok r => rfl

/-- Witness for C4 at concrete inputs: a 202 reply carrying a job id and a
rejected 400 reply. -/
theorem submit_job_spec_witness :
    submit_job (Except.ok ⟨200, { job_id := some "j-1" }⟩) = some "j-1"
    ∧ submit_job (Except.ok ⟨202, { job_id := some "j-1" }⟩) = some "j-1"
    ∧ submit_job (Except.ok ⟨400, { job_id := some "j-1" }⟩) = none
    ∧ submit_job (Except.error (PyExn.requestError "connection refused")) = none
    ∧ (∀ resp, submit_job_medidrive resp = submit_job resp) :=
  submit_job_spec { job_id := some "j-1" } 400
    (PyExn.requestError "connection refused") (by decide) (by decide)

/-- Helper: if the first successful attempt is attempt k, the retry loop
started at any attempt ≤ k returns that result after k - attempt + 1
attempts and k - attempt sleeps. -/
theorem retryGo_success_from (net : Nat → Except PyExn SbsResponse) (maxRetries k : Nat)
    (d : SbsResult) (hk : generate_html (net k) = Except.ok d) (hd : d.success = true)
    (hkm : k ≤ maxRetries)
    (hfail : ∀ j, 1 ≤ j → j < k → attemptFailed (generate_html (net j)) = true) :
    ∀ remaining attempt, 1 ≤ attempt → attempt ≤ k → attempt + remaining = maxRetries + 1 →
      retryGo net maxRetries attempt remaining = (d, k - attempt + 1, k - attempt) := by
  intro remaining
  induction remaining with
  | zero => intro attempt h1 hak hsum; omega
  | succ rem ih =>
    intro attempt h1 hak hsum
    rcases eq_or_lt_of_le hak with heq | hlt
    · subst heq
      simp [retryGo, hk, hd]
    · have hf := hfail attempt h1 hlt
      have hrem : rem ≠ 0 := by omega
      have hih := ih (attempt + 1) (by omega) (by omega) (by omega)
      cases hgh : generate_html (net attempt) with
      | ok d' =>
        have hds : d'.success = false := by
          rw [hgh] at hf
          simpa [attemptFailed] using hf
        simp only [retryGo, hgh, hds, Bool.false_eq_true, if_false, if_neg hrem, hih]
        refine Prod.ext rfl (Prod.ext ?_ ?_) <;> simp <;> omega
      | error e =>
        simp only [retryGo, hgh, if_neg hrem, hih]
        refine Prod.ext rfl (Prod.ext ?_ ?_) <;> simp <;> omega

/-- Helper: if every attempt from the current one on fails, the retry loop
makes exactly its remaining attempts and returns the failure dictionary. -/
theorem retryGo_all_fail (net : Nat → Except PyExn SbsResponse) (maxRetries : Nat)
    (hfail : ∀ j, 1 ≤ j → j ≤ maxRetries → attemptFailed (generate_html (net j)) = true) :
    ∀ remaining attempt, 1 ≤ attempt → attempt + remaining = maxRetries + 1 → 1 ≤ remaining →
      retryGo net maxRetries attempt remaining = (failedAfter maxRetries, remaining, remaining - 1) := by
  intro remaining
  induction remaining with
  | zero => intro attempt h1 hsum hr; omega
  | succ rem ih =>
    intro attempt h1 hsum hr
    have hf := hfail attempt h1 (by omega)
    rcases Nat.eq_zero_or_pos rem with hz | hpos
    · subst hz
      cases hgh : generate_html (net attempt) with
      | ok d' =>
        have hds : d'.success = false := by
          rw [hgh] at hf
          simpa [attemptFailed] using hf
        simp [retryGo, hgh, hds]
      | error e => simp [retryGo, hgh]
    · have hih := ih (attempt + 1) (by omega) (by omega) (by omega)
      cases hgh : generate_html (net attempt) with
      | ok d' =>
        have hds : d'.success = false := by
          rw [hgh] at hf
          simpa [attemptFailed] using hf
        simp only [retryGo, hgh, hds, Bool.false_eq_true, if_false, if_neg (by omega : rem ≠ 0), hih]
        refine Prod.ext rfl (Prod.ext ?_ ?_) <;> simp <;> omega
      | error e =>
        simp only [retryGo, hgh, if_neg (by omega : rem ≠ 0), hih]
        refine Prod.ext rfl (Prod.ext ?_ ?_) <;> simp <;> omega

/-- Claim C3: generate_with_retry returns the successful result immediately
after the first attempt whose result has success true — making exactly k
attempts and k - 1 sleeps when the first success is attempt k — and when
every attempt fails it makes exactly max_retries attempts (with
max_retries - 1 sleeps) before returning the failure dictionary. -/
theorem generate_with_retry_spec (net : Nat → Except PyExn SbsResponse) (maxRetries : Nat)
    (hmr : 1 ≤ maxRetries) :
    (∀ k d, 1 ≤ k → k ≤ maxRetries → generate_html (net k) = Except.ok d → d.success = true →
      (∀ j, 1 ≤ j → j < k → attemptFailed (generate_html (net j)) = true) →
      generate_with_retry net maxRetries = (d, k, k - 1))
    ∧ ((∀ j, 1 ≤ j → j ≤ maxRetries → attemptFailed (generate_html (net j)) = true) →
      generate_with_retry net maxRetries = (failedAfter maxRetries, maxRetries, maxRetries - 1)) := by
  constructor
  · intro k d hk1 hkm hok hd hfail
    have h := retryGo_success_from net maxRetries k d hok hd hkm hfail maxRetries 1
      (by omega) (by omega) (by omega)
    rw [generate_with_retry, h]
    refine Prod.ext rfl (Prod.ext ?_ ?_) <;> simp <;> omega
  · intro hfail
    have h := retryGo_all_fail net maxRetries hfail maxRetries 1 (by omega) (by omega) (by omega)
    rw [generate_with_retry, h]

/-- Witness for C3: a run whose first attempt gets a 500 (raising HTTPError)
and whose second attempt succeeds returns after 2 attempts and 1 sleep; a
run of 2 attempts that both time out returns the failure dictionary after
exactly 2 attempts and 1 sleep. -/
theorem generate_with_retry_spec_witness :
    generate_with_retry
        (fun k => if k = 2
          then Except.ok ⟨200, { success := true, html := some "<h1>ok</h1>" }⟩
          else Except.ok ⟨500, { success := false }⟩) 3
      = ({ success := true, html := some "<h1>ok</h1>" }, 2, 1)
    ∧ generate_with_retry (fun _ => Except.error PyExn.timeout) 2
      = (failedAfter 2, 2, 1) :=
  ⟨(generate_with_retry_spec _ 3 (by decide)).1 2 _ (by decide) (by decide) rfl rfl
      (by
        intro j hj1 hj2
        have hj : j = 1 := by omega
        subst hj
        rfl),
   (generate_with_retry_spec _ 2 (by decide)).2 (fun j _ _ => rfl)⟩

/-- Claim C6: in the hero-image flow a non-200 response short-circuits the
two-call sequence.  A non-200 on the prompt call returns a failure naming
the prompt step and the image call is never issued (the call trace is just
the prompt call); a non-200 on the image call returns a failure naming the
image step with prompt_result attached. -/
theorem hero_image_short_circuit (timeoutSecs : Nat) (pr : PromptResponse)
    (ir : ImageResponse) (iresp : Except PyExn ImageResponse) :
    (pr.statusCode ≠ 200 →
      generate_hero_image_from_unedited timeoutSecs (Except.ok pr) iresp
        = ({ success := false
             error := some ("Prompt generation failed: HTTP " ++ toString pr.statusCode)
             details := some (pr.text.take 500) }, [HeroCall.promptCall]))
    ∧ (pr.statusCode = 200 → ir.statusCode ≠ 200 →
      generate_hero_image_from_unedited timeoutSecs (Except.ok pr) (Except.ok ir)
        = ({ success := false
             error := some ("Image generation failed: HTTP " ++ toString ir.statusCode)
             details := some (ir.text.take 500)
             prompt_result := some pr.body }, [HeroCall.promptCall, HeroCall.imageCall])) := by
  constructor
  · intro hp
    simp [generate_hero_image_from_unedited, hp]
  · intro hp hi
    simp [generate_hero_image_from_unedited, hp, hi]

/-- Witness for C6 at concrete inputs: a 404 prompt response short-circuits
with only the prompt call issued, and a 200 prompt followed by a 500 image
response fails naming the image step with the prompt result attached. -/
theorem hero_image_short_circuit_witness :
    generate_hero_image_from_unedited 300 (Except.ok ⟨404, "not found", {}⟩)
        (Except.ok ⟨500, "boom", {}⟩)
      = ({ success := false
           error := some ("Prompt generation failed: HTTP " ++ toString 404)
           details := some ("not found".take 500) }, [HeroCall.promptCall])
    ∧ generate_hero_image_from_unedited 300
        (Except.ok ⟨200, "ok", { save_success := true, hero_image_prompt_id := some "p1" }⟩)
        (Except.ok ⟨500, "boom", {}⟩)
      = ({ success := false
           error := some ("Image generation failed: HTTP " ++ toString 500)
           details := some ("boom".take 500)
           prompt_result := some { save_success := true, hero_image_prompt_id := some "p1" } },
         [HeroCall.promptCall, HeroCall.imageCall]) :=
  ⟨(hero_image_short_circuit 300 ⟨404, "not found", {}⟩ ⟨500, "boom", {}⟩
      (Except.ok ⟨500, "boom", {}⟩)).1 (by decide),
   (hero_image_short_circuit 300 ⟨200, "ok", { save_success := true, hero_image_prompt_id := some "p1" }⟩
      ⟨500, "boom", {}⟩ (Except.ok ⟨500, "boom", {}⟩)).2 rfl (by decide)⟩

/-- Unfolding of the monitor loop at zero fuel. -/
theorem monitorLoop_zero (fetch : Nat → Option JobRow) (duration interval k e : Nat) :
    monitorLoop fetch duration interval 0 k e
      = if e < duration then .outOfFuel else .timedOut k := rfl

/-- Unfolding of the monitor loop at positive fuel. -/
theorem monitorLoop_succ (fetch : Nat → Option JobRow) (duration interval f k e : Nat) :
    monitorLoop fetch duration interval (f + 1) k e
      = if e < duration then
          match fetch k with
          | some job =>
            if isTerminal job.status then .finished job.status (k + 1) e
            else monitorLoop fetch duration interval f (k + 1) (e + interval)
          | none => monitorLoop fetch duration interval f (k + 1) (e + interval)
        else .timedOut k := rfl

/-- Helper: a number of polls bracketed by the duration equals the ceiling
quotient. -/
theorem ceilDiv_eq_of (d i k : Nat) (hi : 1 ≤ i) (h1 : d ≤ k * i) (h2 : k * i < d + i) :
    k = ceilDiv d i := by
  have hsm : (k + 1) * i = k * i + i := Nat.succ_mul k i
  have hlo : k * i ≤ d + i - 1 := by omega
  have hhi : d + i - 1 < (k + 1) * i := by omega
  have := Nat.div_eq_of_lt_le hlo hhi
  rw [ceilDiv, this]

/-- Unfolding of the loop at positive fuel when the poll fetched a row. -/
theorem monitorLoop_succ_fetch (fetch : Nat → Option JobRow) (duration interval f k e : Nat)
    (job : JobRow) (hfk : fetch k = some job) :
    monitorLoop fetch duration interval (f + 1) k e
      = if e < duration then
          (if isTerminal job.status then .finished job.status (k + 1) e
           else monitorLoop fetch duration interval f (k + 1) (e + interval))
        else .timedOut k := by
  rw [monitorLoop_succ, hfk]

/-- Unfolding of the loop at positive fuel when the poll fetched nothing. -/
theorem monitorLoop_succ_none (fetch : Nat → Option JobRow) (duration interval f k e : Nat)
    (hfk : fetch k = none) :
    monitorLoop fetch duration interval (f + 1) k e
      = if e < duration then monitorLoop fetch duration interval f (k + 1) (e + interval)
        else .timedOut k := by
  rw [monitorLoop_succ, hfk]

/-- Helper: if the first terminal poll is poll ktarget and it happens before
the duration expires, the loop returns that status at that poll. -/
theorem monitorLoop_early (fetch : Nat → Option JobRow) (duration interval ktarget : Nat)
    (job : JobRow) (hi : 1 ≤ interval)
    (hjob : fetch ktarget = some job) (hterm : isTerminal job.status = true)
    (hbefore : ∀ j, j < ktarget → pollNonTerminal (fetch j) = true)
    (hd : ktarget * interval < duration) :
    ∀ fuel k, k ≤ ktarget → k + fuel = duration + 1 →
      monitorLoop fetch duration interval fuel k (k * interval)
        = .finished job.status (ktarget + 1) (ktarget * interval) := by
  intro fuel
  induction fuel with
  | zero =>
    intro k hk hsum
    have hle : ktarget ≤ ktarget * interval := Nat.le_mul_of_pos_right ktarget hi
    omega
  | succ f ih =>
    intro k hk hsum
    have helapsed : k * interval < duration := by
      have := Nat.mul_le_mul_right interval hk
      omega
    rcases eq_or_lt_of_le hk with heq | hlt
    · subst heq
      rw [monitorLoop_succ_fetch fetch duration interval f k (k * interval) job hjob,
        if_pos helapsed, if_pos hterm]
    · have hb := hbefore k hlt
      have hstep : k * interval + interval = (k + 1) * interval := (Nat.succ_mul k interval).symm
      cases hfk : fetch k with
      | some j =>
        have hjt : isTerminal j.status = false := by
          rw [hfk] at hb
          simpa [pollNonTerminal] using hb
        rw [monitorLoop_succ_fetch fetch duration interval f k (k * interval) j hfk,
          if_pos helapsed, hjt]
        simp only [Bool.false_eq_true, if_false]
        rw [hstep]
        exact ih (k + 1) (by omega) (by omega)
      | none =>
        rw [monitorLoop_succ_none fetch duration interval f k (k * interval) hfk,
          if_pos helapsed, hstep]
        exact ih (k + 1) (by omega) (by omega)

/-- Helper: if every poll is non-terminal, the loop times out after exactly
the ceiling of duration / interval polls. -/
theorem monitorLoop_timeout (fetch : Nat → Option JobRow) (duration interval : Nat)
    (hi : 1 ≤ interval) (hall : ∀ k, pollNonTerminal (fetch k) = true) :
    ∀ fuel k, duration ≤ k * interval + fuel * interval →
      k * interval < duration + interval →
      monitorLoop fetch duration interval fuel k (k * interval)
        = .timedOut (ceilDiv duration interval) := by
  intro fuel
  induction fuel with
  | zero =>
    intro k hinv hmin
    have hge : duration ≤ k * interval := by omega
    rw [monitorLoop_zero, if_neg (by omega)]
    rw [ceilDiv_eq_of duration interval k hi hge hmin]
  | succ f ih =>
    intro k hinv hmin
    have hb := hall k
    have hstep : k * interval + interval = (k + 1) * interval := (Nat.succ_mul k interval).symm
    have hinv' : duration ≤ (k + 1) * interval + f * interval := by
      have h1 : (k + 1) * interval = k * interval + interval := Nat.succ_mul k interval
      have h2 : (f + 1) * interval = f * interval + interval := Nat.succ_mul f interval
      omega
    by_cases hlt : k * interval < duration
    · have hmin' : (k + 1) * interval < duration + interval := by
        have h1 : (k + 1) * interval = k * interval + interval := Nat.succ_mul k interval
        omega
      cases hfk : fetch k with
      | some j =>
        have hjt : isTerminal j.status = false := by
          rw [hfk] at hb
          simpa [pollNonTerminal] using hb
        rw [monitorLoop_succ_fetch fetch duration interval f k (k * interval) j hfk,
          if_pos hlt, hjt]
        simp only [Bool.false_eq_true, if_false]
        rw [hstep]
        exact ih (k + 1) hinv' hmin'
      | none =>
        rw [monitorLoop_succ_none fetch duration interval f k (k * interval) hfk,
          if_pos hlt, hstep]
        exact ih (k + 1) hinv' hmin'
    · cases hfk : fetch k with
      | some j =>
        rw [monitorLoop_succ_fetch fetch duration interval f k (k * interval) j hfk,
          if_neg hlt, ceilDiv_eq_of duration interval k hi (by omega) hmin]
      | none =>
        rw [monitorLoop_succ_none fetch duration interval f k (k * interval) hfk,
          if_neg hlt, ceilDiv_eq_of duration interval k hi (by omega) hmin]

/-- Helper: the loop reports a finished status only if some poll actually
fetched a row with that terminal status. -/
theorem monitorLoop_finished_inv (fetch : Nat → Option JobRow) (duration interval : Nat) :
    ∀ fuel k e s p el, monitorLoop fetch duration interval fuel k e = .finished s p el →
      ∃ j job, fetch j = some job ∧ isTerminal job.status = true ∧ s = job.status := by
  intro fuel
  induction fuel with
  | zero =>
    intro k e s p el h
    rw [monitorLoop_zero] at h
    by_cases he : e < duration
    · rw [if_pos he] at h
      exact absurd h (by simp)
    · rw [if_neg he] at h
      exact absurd h (by simp)
  | succ f ih =>
    intro k e s p el h
    by_cases he : e < duration
    · cases hfk : fetch k with
      | some job =>
        rw [monitorLoop_succ_fetch fetch duration interval f k e job hfk, if_pos he] at h
        by_cases hjt : isTerminal job.status = true
        · rw [if_pos hjt] at h
          exact ⟨k, job, hfk, hjt, (by injection h : job.status = s).symm⟩
        · rw [if_neg hjt] at h
          exact ih (k + 1) (e + interval) s p el h
      | none =>
        rw [monitorLoop_succ_none fetch duration interval f k e hfk, if_pos he] at h
        exact ih (k + 1) (e + interval) s p el h
    · rw [monitorLoop_succ, if_neg he] at h
      exact absurd h (by simp)

/-- Claim C5: monitor_job returns as soon as a fetched job row has status
completed or failed — at poll k it returns after k + 1 polls with elapsed
time k * interval, strictly less than the maximum duration — and when no
poll is terminal it stops once the maximum duration has elapsed, after
exactly ceilDiv duration interval polls. -/
theorem monitor_job_terminates_spec (fetch : Nat → Option JobRow) (duration interval : Nat)
    (hi : 1 ≤ interval) :
    (∀ k job, fetch k = some job → isTerminal job.status = true →
      (∀ j, j < k → pollNonTerminal (fetch j) = true) →
      k * interval < duration →
      monitor_job fetch duration interval = .finished job.status (k + 1) (k * interval))
    ∧ ((∀ k, pollNonTerminal (fetch k) = true) →
      monitor_job fetch duration interval = .timedOut (ceilDiv duration interval)) := by
  constructor
  · intro k job hjob hterm hbefore hd
    have h := monitorLoop_early fetch duration interval k job hi hjob hterm hbefore hd
      (duration + 1) 0 (by omega) (by omega)
    simpa [monitor_job, Nat.zero_mul] using h
  · intro hall
    have hmul : duration + 1 ≤ (duration + 1) * interval :=
      Nat.le_mul_of_pos_right (duration + 1) hi
    have h := monitorLoop_timeout fetch duration interval hi hall (duration + 1) 0
      (by omega) (by omega)
    simpa [monitor_job, Nat.zero_mul] using h

/-- Witness for C5: with a 2-second interval and a 10-second budget, a job
that turns completed at the second poll stops after 2 polls at 2 elapsed
seconds; with no terminal poll and a 5-second budget the monitor makes
ceilDiv 5 2 = 3 polls and times out. -/
theorem monitor_job_terminates_spec_witness :
    monitor_job (fun k => if k = 1 then some ⟨"completed", ""⟩ else none) 10 2
      = .finished "completed" 2 2
    ∧ monitor_job (fun _ => none) 5 2 = .timedOut (ceilDiv 5 2) :=
  ⟨(monitor_job_terminates_spec (fun k => if k = 1 then some ⟨"completed", ""⟩ else none)
      10 2 (by decide)).1 1 ⟨"completed", ""⟩ rfl rfl
      (by
        intro j hj
        have hj0 : j = 0 := by omega
        subst hj0
        rfl)
      (by decide),
   (monitor_job_terminates_spec (fun _ => none) 5 2 (by decide)).2 (fun _ => rfl)⟩

/-- Claim C10: a failed status fetch never terminates the monitoring loop
early.  check_job_status returns None on an exception, a non-200 response,
or an empty row list; when every poll yields None the monitor keeps polling
until the duration elapses (timing out after ceilDiv duration interval
polls); and a finished return can only arise from a poll that actually
fetched a terminal row. -/
theorem monitor_fetch_failures_keep_polling (responses : Nat → Except PyExn RestResponse)
    (duration interval : Nat) (hi : 1 ≤ interval) :
    (∀ e, check_job_status (Except.error e) = none)
    ∧ (∀ r : RestResponse, r.statusCode ≠ 200 → check_job_status (Except.ok r) = none)
    ∧ (∀ s, check_job_status (Except.ok ⟨s, []⟩) = none)
    ∧ ((∀ k, check_job_status (responses k) = none) →
      monitor_job (fun k => check_job_status (responses k)) duration interval
        = .timedOut (ceilDiv duration interval))
    ∧ (∀ s p el,
      monitor_job (fun k => check_job_status (responses k)) duration interval
        = .finished s p el →
      ∃ k job, check_job_status (responses k) = some job ∧ isTerminal job.status = true
        ∧ s = job.status) := by
  refine ⟨fun e => rfl, ?_, ?_, ?_, ?_⟩
  · intro r hr
    simp [check_job_status, hr]
  · intro s
    by_cases hs : s = 200 <;> simp [check_job_status, hs]
  · intro hnone
    have hall : ∀ k, pollNonTerminal (check_job_status (responses k)) = true := by
      intro k
      rw [hnone k]
      rfl
    have hmul : duration + 1 ≤ (duration + 1) * interval :=
      Nat.le_mul_of_pos_right (duration + 1) hi
    have h := monitorLoop_timeout _ duration interval hi hall (duration + 1) 0
      (by omega) (by omega)
    simpa [monitor_job, Nat.zero_mul] using h
  · intro s p el h
    exact monitorLoop_finished_inv _ duration interval (duration + 1) 0 0 s p el h

/-- Witness for C10: when every poll's request raises, monitoring a
5-second budget at a 1-second interval times out after 5 polls instead of
finishing early. -/
theorem monitor_fetch_failures_keep_polling_witness :
    monitor_job
        (fun k => check_job_status ((fun _ => Except.error (PyExn.requestError "net down")) k))
        5 1
      = .timedOut (ceilDiv 5 1) :=
  (monitor_fetch_failures_keep_polling (fun _ => Except.error (PyExn.requestError "net down"))
      5 1 (by decide)).2.2.2.1 (fun _ => rfl)

/-- Helper: the collection step records the submitted task id unchanged. -/
theorem collectEntry_task_id (tid : String) (net : Except PyExn SbsResponse) :
    (collectEntry tid net).task_id = tid := by
  cases hg : generate_html net <;> simp [collectEntry, hg]

/-- Helper: indexing a list at every position of its range reproduces it. -/
theorem map_getD_range (l : List String) :
    (List.range l.length).map (fun i => l.getD i "") = l := by
  induction l with
  | nil => rfl
  | cons a l ih =>
    rw [List.length_cons, List.range_succ_eq_map, List.map_cons, List.map_map]
    have hfun : ((fun i => (a :: l).getD i "") ∘ Nat.succ) = fun i => l.getD i "" := by
      funext i
      simp [List.getD_cons_succ]
    rw [List.getD_cons_zero, hfun, ih]

/-- Claim C7: whatever the completion order of the futures (any permutation
of the submitted indices) and whether each task succeeded or raised, the
parallel batch runner collects exactly one result entry per submitted task
ID: the collected task ids are a permutation of the submitted list, so each
id occurs in the results exactly as often as it was submitted. -/
theorem batch_parallel_one_result_per_task (taskIds : List String)
    (net : Nat → Except PyExn SbsResponse) (order : List Nat)
    (hperm : order.Perm (List.range taskIds.length)) :
    ((example_batch_parallel taskIds net order).map (fun en => en.task_id)).Perm taskIds
    ∧ ∀ tid : String,
      ((example_batch_parallel taskIds net order).map (fun en => en.task_id)).count tid
        = taskIds.count tid := by
  have h1 : (example_batch_parallel taskIds net order).map (fun en => en.task_id)
      = order.map (fun i => taskIds.getD i "") := by
    rw [example_batch_parallel, List.map_map]
    exact List.map_congr_left (fun i _ => collectEntry_task_id (taskIds.getD i "") (net i))
  have h2 : (order.map (fun i => taskIds.getD i "")).Perm taskIds := by
    have h := hperm.map (fun i => taskIds.getD i "")
    rwa [map_getD_range] at h
  rw [h1]
  exact ⟨h2, fun tid => h2.count_eq tid⟩

/-- Witness for C7: the source's five task ids with completion order
2, 0, 1, 4, 3 where future 0 raised a timeout: the collected ids are a
permutation of the submitted list and task-uuid-3 appears exactly once. -/
theorem batch_parallel_one_result_per_task_witness :
    ((example_batch_parallel taskIds5
        (fun i => if i = 0 then Except.error PyExn.timeout
          else Except.ok ⟨200, { success := true, html := some "<p>x</p>" }⟩)
        [2, 0, 1, 4, 3]).map (fun en => en.task_id)).Perm taskIds5
    ∧ ((example_batch_parallel taskIds5
        (fun i => if i = 0 then Except.error PyExn.timeout
          else Except.ok ⟨200, { success := true, html := some "<p>x</p>" }⟩)
        [2, 0, 1, 4, 3]).map (fun en => en.task_id)).count "task-uuid-3"
      = taskIds5.count "task-uuid-3" :=
  ⟨(batch_parallel_one_result_per_task taskIds5
      (fun i => if i = 0 then Except.error PyExn.timeout
        else Except.ok ⟨200, { success := true, html := some "<p>x</p>" }⟩)
      [2, 0, 1, 4, 3] (by decide)).1,
   (batch_parallel_one_result_per_task taskIds5
      (fun i => if i = 0 then Except.error PyExn.timeout
        else Except.ok ⟨200, { success := true, html := some "<p>x</p>" }⟩)
      [2, 0, 1, 4, 3] (by decide)).2 "task-uuid-3"⟩

/-- Helper: a list is a prefix of itself followed by anything. -/
theorem isPrefixOf_append_self (l t : List Char) : l.isPrefixOf (l ++ t) = true := by
  induction l with
  | nil => simp [List.isPrefixOf]
  | cons a l ih => simp [List.isPrefixOf, ih]

/-- Helper: a pattern that is a prefix of a list occurs in it. -/
theorem occursIn_of_prefix_eq (pat s : List Char) (h : pat.isPrefixOf s = true) :
    occursIn pat s = true := by
  cases s with
  | nil => simpa [occursIn] using h
  | cons c rest => simp [occursIn, h]

/-- Helper: a pattern occurs in any list in which it appears contiguously. -/
theorem occursIn_append (a pat b : List Char) : occursIn pat (a ++ (pat ++ b)) = true := by
  induction a with
  | nil => exact occursIn_of_prefix_eq pat (pat ++ b) (isPrefixOf_append_self pat b)
  | cons c a ih =>
    rw [List.cons_append]
    simp [occursIn, ih]

/-- Helper: String.toList distributes over append. -/
theorem str_toList_append (a b : String) : (a ++ b).toList = a.toList ++ b.toList :=
  String.data_append a b

/-- Claim C8 (amended): on a success result, call-generate-side-by-side.py
writes the HTML to output-TASKID.html, and writes schema-TASKID.json exactly
when the result carries a schema value; both names contain the task ID as a
substring.  The quickstart performs the same writes but to the fixed names
generated-output.html and generated-schema.json, which do not include the
task ID. -/
theorem save_outputs_amended (tid : String) (r : SbsResult) (hs : r.success = true) :
    (∀ sch, r.schema = some sch →
      saveOutputs tid r
        = [{ fname := "output-" ++ tid ++ ".html", content := r.html.getD "" },
           { fname := "schema-" ++ tid ++ ".json", content := sch }]
      ∧ saveOutputsQuickstart r
        = [{ fname := "generated-output.html", content := r.html.getD "" },
           { fname := "generated-schema.json", content := sch }])
    ∧ (r.schema = none →
      saveOutputs tid r
        = [{ fname := "output-" ++ tid ++ ".html", content := r.html.getD "" }]
      ∧ saveOutputsQuickstart r
        = [{ fname := "generated-output.html", content := r.html.getD "" }])
    ∧ occursIn tid.toList ("output-" ++ tid ++ ".html").toList = true
    ∧ occursIn tid.toList ("schema-" ++ tid ++ ".json").toList = true := by
  refine ⟨?_, ?_, ?_, ?_⟩
  · intro sch hsch
    constructor <;> simp [saveOutputs, saveOutputsQuickstart, hs, hsch]
  · intro hsch
    constructor <;> simp [saveOutputs, saveOutputsQuickstart, hs, hsch]
  · rw [str_toList_append, str_toList_append, List.append_assoc]
    exact occursIn_append _ _ _
  · rw [str_toList_append, str_toList_append, List.append_assoc]
    exact occursIn_append _ _ _

/-- Witness for C8 (amended) at a concrete success result carrying a
schema. -/
theorem save_outputs_amended_witness :
    (saveOutputs "4b0f2b87" { success := true, html := some "<html></html>", schema := some "sample-schema" }
      = [{ fname := "output-" ++ "4b0f2b87" ++ ".html", content := "<html></html>" },
         { fname := "schema-" ++ "4b0f2b87" ++ ".json", content := "sample-schema" }]
      ∧ saveOutputsQuickstart { success := true, html := some "<html></html>", schema := some "sample-schema" }
        = [{ fname := "generated-output.html", content := "<html></html>" },
           { fname := "generated-schema.json", content := "sample-schema" }])
    ∧ occursIn ("4b0f2b87").toList ("output-" ++ "4b0f2b87" ++ ".html").toList = true :=
  ⟨(save_outputs_amended "4b0f2b87"
      { success := true, html := some "<html></html>", schema := some "sample-schema" } rfl).1
      "sample-schema" rfl,
   (save_outputs_amended "4b0f2b87"
      { success := true, html := some "<html></html>", schema := some "sample-schema" } rfl).2.2.1⟩

/-- Counterexample to claim C8 as stated: for a concrete success result, the
quickstart writes its HTML and schema to generated-output.html and
generated-schema.json, and neither name includes the script's task ID
(your-task-uuid-here) as a substring. -/
theorem quickstart_filename_counterexample :
    saveOutputsQuickstart { success := true, html := some "<html></html>", schema := some "sample-schema" }
      = [{ fname := "generated-output.html", content := "<html></html>" },
         { fname := "generated-schema.json", content := "sample-schema" }]
    ∧ occursIn ("your-task-uuid-here").toList ("generated-output.html").toList = false
    ∧ occursIn ("your-task-uuid-here").toList ("generated-schema.json").toList = false := by
  refine ⟨rfl, ?_, ?_⟩ <;> decide

/-- Helper: with enough fuel the waiting loop never stops before max_wait. -/
theorem pollLoop_ge (poll_interval max_wait : Nat) :
    ∀ fuel e, max_wait ≤ e + fuel * poll_interval → max_wait ≤ pollLoop poll_interval max_wait fuel e := by
  intro fuel
  induction fuel with
  | zero =>
    intro e h
    simpa [pollLoop] using (by omega : max_wait ≤ e)
  | succ f ih =>
    intro e h
    by_cases he : e < max_wait
    · rw [pollLoop, if_pos he]
      apply ih
      have hsm : (f + 1) * poll_interval = f * poll_interval + poll_interval :=
        Nat.succ_mul f poll_interval
      omega
    · rw [pollLoop, if_neg he]
      omega

/-- Claim C9: generate_with_polling never returns a success result.  Unless
the kickoff raises a non-timeout exception (which propagates), it waits out
max_wait — the slept time reaches max_wait — and returns the dictionary
success=False, error="Polling timeout"; and every normally-returned
dictionary has success false. -/
theorem generate_with_polling_never_succeeds (kick : Except PyExn SbsResponse)
    (poll_interval max_wait : Nat) (hpi : 1 ≤ poll_interval) :
    ((∀ e, kick = Except.error e → e = PyExn.timeout) →
      generate_with_polling kick poll_interval max_wait
        = Except.ok ({ success := false, error := some "Polling timeout" },
            pollLoop poll_interval max_wait (max_wait + 1) 0)
      ∧ max_wait ≤ pollLoop poll_interval max_wait (max_wait + 1) 0)
    ∧ (∀ e, e ≠ PyExn.timeout → kick = Except.error e →
      generate_with_polling kick poll_interval max_wait = Except.error e)
    ∧ (∀ d w, generate_with_polling kick poll_interval max_wait = Except.ok (d, w) →
      d.success = false) := by
  have hwait : max_wait ≤ pollLoop poll_interval max_wait (max_wait + 1) 0 := by
    apply pollLoop_ge
    have := Nat.le_mul_of_pos_right (max_wait + 1) hpi
    omega
  refine ⟨?_, ?_, ?_⟩
  · intro honly
    refine ⟨?_, hwait⟩
    cases kick with
    | ok r => rfl
    | error e =>
      have he := honly e rfl
      subst he
      rfl
  · intro e he hk
    subst hk
    cases e with
    | timeout => exact absurd rfl he
    | httpError s => rfl
    | requestError m => rfl
    | otherError m => rfl
  · intro d w h
    cases kick with
    | ok r =>
      simp only [generate_with_polling, Except.ok.injEq, Prod.mk.injEq] at h
      obtain ⟨h1, h2⟩ := h
      rw [← h1]
    | error e =>
      cases e with
      | timeout =>
        simp only [generate_with_polling, Except.ok.injEq, Prod.mk.injEq] at h
        obtain ⟨h1, h2⟩ := h
        rw [← h1]
      | httpError s => exact absurd h (by simp [generate_with_polling])
      | requestError m => exact absurd h (by simp [generate_with_polling])
      | otherError m => exact absurd h (by simp [generate_with_polling])

/-- Witness for C9: a kickoff that returned normally still ends in the
polling-timeout failure dictionary after sleeping out the 3-second window
at a 1-second interval. -/
theorem generate_with_polling_never_succeeds_witness :
    generate_with_polling (Except.ok ⟨200, { success := true }⟩) 1 3
      = Except.ok ({ success := false, error := some "Polling timeout" }, pollLoop 1 3 4 0)
    ∧ 3 ≤ pollLoop 1 3 4 0 :=
  (generate_with_polling_never_succeeds (Except.ok ⟨200, { success := true }⟩) 1 3
    (by decide)).1 (fun e h => Except.noConfusion h)

/-- Unfolding of the strip pass at the empty string. -/
theorem stripTag_nil (opn close : Chars) (hne : opn ≠ []) : stripTag opn close hne [] = [] := by
  rw [stripTag]

/-- Unfolding of the strip pass where the opening marker does not match. -/
theorem stripTag_cons_skip (opn close : Chars) (hne : opn ≠ []) (c : Char) (s : Chars)
    (h : opn.isPrefixOf (c :: s) = false) :
    stripTag opn close hne (c :: s) = c :: stripTag opn close hne s := by
  rw [stripTag]
  simp [h]

/-- Unfolding of the strip pass where the opening marker matches and a
closing marker follows: the whole tagged span is dropped. -/
theorem stripTag_cons_match (opn close : Chars) (hne : opn ≠ []) (c : Char) (s r : Chars)
    (h : opn.isPrefixOf (c :: s) = true)
    (hf : findClose close (List.drop opn.length (c :: s)) = some r) :
    stripTag opn close hne (c :: s) = stripTag opn close hne r := by
  rw [stripTag, if_pos h]
  split
  · rename_i r' heq
    rw [hf] at heq
    injection heq with heq'
    rw [heq']
  · rename_i heq
    rw [hf] at heq
    exact Option.noConfusion heq

/-- Helper: a pattern whose first character differs cannot match. -/
theorem isPrefixOf_cons_ne (a : Char) (l : Chars) (c : Char) (s : Chars) (h : ¬ a = c) :
    (a :: l).isPrefixOf (c :: s) = false := by
  simp [List.isPrefixOf, h]

/-- Helper: the strip pass copies any marker-free segment verbatim (all
markers begin with the angle bracket). -/
theorem stripTag_append_nolt (opn close : Chars) (hne : opn ≠ [])
    (hhead : opn.head? = some '<') (t s : Chars) (ht : ∀ ch ∈ t, ch ≠ '<') :
    stripTag opn close hne (t ++ s) = t ++ stripTag opn close hne s := by
  induction t with
  | nil => simp
  | cons c t ih =>
    have hc : c ≠ '<' := ht c (by simp)
    obtain ⟨o, l, ho⟩ : ∃ o l, opn = o :: l := by
      cases opn with
      | nil => exact absurd rfl hne
      | cons o l => exact ⟨o, l, rfl⟩
    have ho' : o = '<' := by
      rw [ho] at hhead
      simpa using hhead
    have hp : opn.isPrefixOf (c :: (t ++ s)) = false := by
      rw [ho, ho']
      exact isPrefixOf_cons_ne '<' l c (t ++ s) (fun hh => hc hh.symm)
    rw [List.cons_append, stripTag_cons_skip opn close hne c (t ++ s) hp,
      ih (fun ch hm => ht ch (List.mem_cons_of_mem c hm))]
    rfl

/-- Helper: the strip pass leaves a marker-free string unchanged. -/
theorem stripTag_nolt (opn close : Chars) (hne : opn ≠ [])
    (hhead : opn.head? = some '<') (t : Chars) (ht : ∀ ch ∈ t, ch ≠ '<') :
    stripTag opn close hne t = t := by
  have h := stripTag_append_nolt opn close hne hhead t [] ht
  simpa [stripTag_nil] using h

/-- Helper: scanning past marker-free content finds the closing marker
exactly where it stands. -/
theorem findClose_at_close (close : Chars) (hcl : close.head? = some '<') (cnt s : Chars)
    (hcnt : ∀ ch ∈ cnt, ch ≠ '<') :
    findClose close (cnt ++ (close ++ s)) = some s := by
  induction cnt with
  | nil =>
    rw [List.nil_append]
    cases close with
    | nil => simp at hcl
    | cons c0 cl =>
      have hp : (c0 :: cl).isPrefixOf ((c0 :: cl) ++ s) = true := isPrefixOf_append_self _ _
      rw [List.cons_append] at hp ⊢
      rw [findClose, if_pos hp, ← List.cons_append, List.drop_left]
  | cons c cnt ih =>
    have hc : c ≠ '<' := hcnt c (by simp)
    obtain ⟨c0, cl, hc0⟩ : ∃ c0 cl, close = c0 :: cl := by
      cases close with
      | nil => simp at hcl
      | cons c0 cl => exact ⟨c0, cl, rfl⟩
    have hc0' : c0 = '<' := by
      rw [hc0] at hcl
      simpa using hcl
    have hp : close.isPrefixOf (c :: (cnt ++ (close ++ s))) = false := by
      rw [hc0, hc0']
      exact isPrefixOf_cons_ne '<' cl c _ (fun hh => hc hh.symm)
    rw [List.cons_append, findClose, if_neg (by simp [hp]),
      ih (fun ch hm => hcnt ch (List.mem_cons_of_mem c hm))]

/-- Helper: a complete well-formed tagged block is removed entirely. -/
theorem stripTag_block (opn close : Chars) (hne : opn ≠ []) (hcl : close.head? = some '<')
    (cnt s : Chars) (hcnt : ∀ ch ∈ cnt, ch ≠ '<') :
    stripTag opn close hne (opn ++ (cnt ++ (close ++ s))) = stripTag opn close hne s := by
  cases opn with
  | nil => exact absurd rfl hne
  | cons o l =>
    rw [List.cons_append]
    rw [stripTag_cons_match (o :: l) close hne o (l ++ (cnt ++ (close ++ s))) s ?_ ?_]
    · rw [← List.cons_append]
      exact isPrefixOf_append_self _ _
    · rw [← List.cons_append, List.drop_left]
      exact findClose_at_close close hcl cnt s hcnt

/-- Helper: the processing marker never matches at the head of a think
opening marker. -/
theorem procOpen_no_match_t (y : Chars) : procOpen.isPrefixOf ('<' :: 't' :: y) = false := by
  simp [procOpen, List.isPrefixOf]

/-- Helper: the processing marker never matches at the head of a closing
marker. -/
theorem procOpen_no_match_slash (y : Chars) : procOpen.isPrefixOf ('<' :: '/' :: y) = false := by
  simp [procOpen, List.isPrefixOf]

/-- The processing pass over a marker-free segment. -/
theorem stripProc_append_nolt (t s : Chars) (ht : ∀ ch ∈ t, ch ≠ '<') :
    stripProc (t ++ s) = t ++ stripProc s :=
  stripTag_append_nolt procOpen procClose (by decide) rfl t s ht

/-- The think pass over a marker-free segment. -/
theorem stripThink_append_nolt (t s : Chars) (ht : ∀ ch ∈ t, ch ≠ '<') :
    stripThink (t ++ s) = t ++ stripThink s :=
  stripTag_append_nolt thinkOpen thinkClose (by decide) rfl t s ht

/-- The processing pass on a marker-free string. -/
theorem stripProc_nolt (t : Chars) (ht : ∀ ch ∈ t, ch ≠ '<') : stripProc t = t :=
  stripTag_nolt procOpen procClose (by decide) rfl t ht

/-- The think pass on a marker-free string. -/
theorem stripThink_nolt (t : Chars) (ht : ∀ ch ∈ t, ch ≠ '<') : stripThink t = t :=
  stripTag_nolt thinkOpen thinkClose (by decide) rfl t ht

/-- The processing pass removes a processing block. -/
theorem stripProc_block (cnt s : Chars) (hcnt : ∀ ch ∈ cnt, ch ≠ '<') :
    stripProc (procOpen ++ (cnt ++ (procClose ++ s))) = stripProc s :=
  stripTag_block procOpen procClose (by decide) rfl cnt s hcnt

/-- The think pass removes a think block. -/
theorem stripThink_block (cnt s : Chars) (hcnt : ∀ ch ∈ cnt, ch ≠ '<') :
    stripThink (thinkOpen ++ (cnt ++ (thinkClose ++ s))) = stripThink s :=
  stripTag_block thinkOpen thinkClose (by decide) rfl cnt s hcnt

/-- The processing pass steps over a think opening marker. -/
theorem stripProc_skip_thinkOpen (s : Chars) :
    stripProc (thinkOpen ++ s) = thinkOpen ++ stripProc s := by
  have h2 : stripProc ('<' :: (['t', 'h', 'i', 'n', 'k', '>'] ++ s))
      = '<' :: stripProc (['t', 'h', 'i', 'n', 'k', '>'] ++ s) := by
    apply stripTag_cons_skip
    exact procOpen_no_match_t (['h', 'i', 'n', 'k', '>'] ++ s)
  have h3 : stripProc (['t', 'h', 'i', 'n', 'k', '>'] ++ s)
      = ['t', 'h', 'i', 'n', 'k', '>'] ++ stripProc s :=
    stripProc_append_nolt _ s (by decide)
  calc stripProc (thinkOpen ++ s)
      = '<' :: stripProc (['t', 'h', 'i', 'n', 'k', '>'] ++ s) := h2
    _ = '<' :: (['t', 'h', 'i', 'n', 'k', '>'] ++ stripProc s) := by rw [h3]
    _ = thinkOpen ++ stripProc s := rfl

/-- The processing pass steps over a think closing marker. -/
theorem stripProc_skip_thinkClose (s : Chars) :
    stripProc (thinkClose ++ s) = thinkClose ++ stripProc s := by
  have h2 : stripProc ('<' :: (['/', 't', 'h', 'i', 'n', 'k', '>'] ++ s))
      = '<' :: stripProc (['/', 't', 'h', 'i', 'n', 'k', '>'] ++ s) := by
    apply stripTag_cons_skip
    exact procOpen_no_match_slash (['t', 'h', 'i', 'n', 'k', '>'] ++ s)
  have h3 : stripProc (['/', 't', 'h', 'i', 'n', 'k', '>'] ++ s)
      = ['/', 't', 'h', 'i', 'n', 'k', '>'] ++ stripProc s :=
    stripProc_append_nolt _ s (by decide)
  calc stripProc (thinkClose ++ s)
      = '<' :: stripProc (['/', 't', 'h', 'i', 'n', 'k', '>'] ++ s) := h2
    _ = '<' :: (['/', 't', 'h', 'i', 'n', 'k', '>'] ++ stripProc s) := by rw [h3]
    _ = thinkClose ++ stripProc s := rfl

/-- The processing pass leaves an entire think block intact (so the later
think pass sees it whole). -/
theorem stripProc_through_think (cnt s : Chars) (hcnt : ∀ ch ∈ cnt, ch ≠ '<') :
    stripProc (thinkOpen ++ (cnt ++ (thinkClose ++ s)))
      = thinkOpen ++ (cnt ++ (thinkClose ++ stripProc s)) := by
  rw [stripProc_skip_thinkOpen, stripProc_append_nolt cnt _ hcnt, stripProc_skip_thinkClose]

/-- Helper: whitespace characters are not the marker character. -/
theorem space_ne_lt (c : Char) (h : isSpaceChar c = true) : c ≠ '<' := by
  intro heq
  subst heq
  exact absurd h (by decide)

/-- Helper: leading whitespace disappears under trimLeft. -/
theorem trimLeft_ws_append (w s : Chars) (hw : ∀ ch ∈ w, isSpaceChar ch = true) :
    trimLeft (w ++ s) = trimLeft s := by
  induction w with
  | nil => simp
  | cons c w ih =>
    rw [List.cons_append, trimLeft, if_pos (hw c (by simp)),
      ih (fun ch hm => hw ch (List.mem_cons_of_mem c hm))]

/-- Helper: leading whitespace disappears under trim. -/
theorem trim_ws_append (w s : Chars) (hw : ∀ ch ∈ w, isSpaceChar ch = true) :
    trim (w ++ s) = trim s := by
  rw [trim, trimLeft_ws_append w s hw, trim]

/-- Helper: the separators of well-formed blocks are whitespace. -/
theorem sepsOf_space (bs : List StreamBlock) (hbs : ∀ b ∈ bs, goodBlock b) :
    ∀ ch ∈ sepsOf bs, isSpaceChar ch = true := by
  induction bs with
  | nil => intro ch hm; simp [sepsOf] at hm
  | cons b bs ih =>
    intro ch hm
    rw [sepsOf] at hm
    rcases List.mem_append.mp hm with h | h
    · exact (hbs b (by simp)).2 ch h
    · exact ih (fun x hx => hbs x (List.mem_cons_of_mem b hx)) ch h

/-- Helper: the two strip passes reduce any sequence of well-formed tagged
blocks before a marker-free body to the separators plus the body. -/
theorem strip2_renderBlocks (bs : List StreamBlock) (body : Chars)
    (hbs : ∀ b ∈ bs, goodBlock b) (hbody : ∀ ch ∈ body, ch ≠ '<') :
    stripThink (stripProc (renderBlocks bs ++ body)) = sepsOf bs ++ body := by
  induction bs with
  | nil =>
    rw [renderBlocks, List.nil_append, sepsOf, List.nil_append,
      stripProc_nolt body hbody, stripThink_nolt body hbody]
  | cons b bs ih =>
    obtain ⟨hcnt, hsep⟩ := hbs b (by simp)
    have hbs' : ∀ x ∈ bs, goodBlock x := fun x hx => hbs x (List.mem_cons_of_mem b hx)
    have hsep' : ∀ ch ∈ b.sep, ch ≠ '<' := fun ch hm => space_ne_lt ch (hsep ch hm)
    have hrest := ih hbs'
    cases hk : b.kind with
    | proc =>
      have hshape : renderBlocks (b :: bs) ++ body
          = procOpen ++ (b.content ++ (procClose ++ (b.sep ++ (renderBlocks bs ++ body)))) := by
        rw [renderBlocks, renderBlock, hk]
        simp [openTag, closeTag, List.append_assoc]
      rw [hshape, stripProc_block _ _ hcnt, stripProc_append_nolt _ _ hsep',
        stripThink_append_nolt _ _ hsep', hrest, sepsOf]
      simp [List.append_assoc]
    | think =>
      have hshape : renderBlocks (b :: bs) ++ body
          = thinkOpen ++ (b.content ++ (thinkClose ++ (b.sep ++ (renderBlocks bs ++ body)))) := by
        rw [renderBlocks, renderBlock, hk]
        simp [openTag, closeTag, List.append_assoc]
      rw [hshape, stripProc_through_think _ _ hcnt,
        stripProc_append_nolt _ _ hsep', stripThink_block _ _ hcnt,
        stripThink_append_nolt _ _ hsep', hrest, sepsOf]
      simp [List.append_assoc]

/-- Helper: the extraction step of test_schema_perfect maps any well-formed
blocks-then-body stream to the stripped body. -/
theorem cleanResponse_blocks (bs : List StreamBlock) (body : Chars)
    (hbs : ∀ b ∈ bs, goodBlock b) (hbody : ∀ ch ∈ body, ch ≠ '<') :
    cleanResponse (renderBlocks bs ++ body) = trim body := by
  rw [cleanResponse, strip2_renderBlocks bs body hbs hbody,
    trim_ws_append _ _ (sepsOf_space bs hbs)]

/-- Claim C2: for any streamed 200 response whose accumulated text is any
number of well-formed processing/think blocks followed by a marker-free
body, the final parsed JSON is the parse of the stripped body alone — the
number and arrangement of the blocks and the content inside them have no
effect on the parsed result. -/
theorem schema_parse_ignores_blocks {α : Type} (parse : Chars → Option α)
    (bs : List StreamBlock) (body : Chars) (lines : List Chars)
    (hbs : ∀ b ∈ bs, goodBlock b) (hbody : ∀ ch ∈ body, ch ≠ '<')
    (hl : consume lines = renderBlocks bs ++ body) :
    test_schema_perfect parse (Except.ok ⟨200, lines⟩) = parse (trim body) := by
  simp only [test_schema_perfect, if_pos]
  rw [hl, cleanResponse_blocks bs body hbs hbody]

/-- Witness for C2 at the spec's example: the single stream line
think-open, garbage{not json}, think-close, then the Article object parses
to exactly the parse of the Article object text. -/
theorem schema_parse_ignores_blocks_witness :
    test_schema_perfect (fun s => some s) (Except.ok ⟨200, [exLine]⟩)
      = some (trim (exBody ++ ['\n']))
    ∧ trim (exBody ++ ['\n']) = exBody :=
  ⟨schema_parse_ignores_blocks (fun s => some s) [exBlock] (exBody ++ ['\n']) [exLine]
      (by
        intro b hb
        rw [List.mem_singleton] at hb
        subst hb
        exact ⟨by decide, by decide⟩)
      (by decide)
      (by decide),
   by decide⟩
